import Mathlib

/-!
Shallow embedding of the `lai` WeChat notification scripts
(`scripts/wechat_bot.py` and `scripts/test_wechat.py`).

The network is modelled by a response oracle `Net : HttpRequest → NetResult`;
applying it corresponds to the single `requests.post` call.  A JSON value
decoded by `response.json()` is modelled by the inductive `Json`; a decoded
JSON object is a Python dict, represented as an association list whose keys
are unique (as produced by `json.loads`).  A Python exception that escapes a
function is modelled by `PyResult.exn`; Python's interpreter exits with code 1
on an uncaught exception, after printing a traceback to standard error.
-/

/-- JSON values as decoded by Python's `json` module.  Floating point numbers
are not used by this code base and are not modelled. -/
inductive Json where
  | null
  | bool (b : Bool)
  | num (n : Int)
  | str (s : String)
  | arr (elems : List Json)
  | obj (fields : List (String × Json))

mutual

/-- Python `repr` of a JSON-decoded value (string escaping inside reprs is not
modelled; the scripts never hit it). -/
def Json.pyRepr : Json → String
  | Json.null => "None"
  | Json.bool true => "True"
  | Json.bool false => "False"
  | Json.num n => toString n
  | Json.str s => "\x27" ++ s ++ "\x27"
  | Json.arr xs => "[" ++ pyReprElems xs ++ "]"
  | Json.obj fs => "\x7b" ++ pyReprFields fs ++ "\x7d"

/-- Comma-separated reprs of the elements of a Python list. -/
def pyReprElems : List Json → String
  | [] => ""
  | [j] => Json.pyRepr j
  | j :: js => Json.pyRepr j ++ ", " ++ pyReprElems js

/-- Comma-separated `key: value` reprs of the items of a Python dict. -/
def pyReprFields : List (String × Json) → String
  | [] => ""
  | [(k, v)] => "\x27" ++ k ++ "\x27: " ++ Json.pyRepr v
  | (k, v) :: fs => "\x27" ++ k ++ "\x27: " ++ Json.pyRepr v ++ ", " ++ pyReprFields fs

end

/-- Python `str` of a JSON-decoded value, as applied by f-string
interpolation: the identity on strings, `repr` otherwise. -/
def Json.pyStr : Json → String
  | Json.str s => s
  | j => j.pyRepr

/-- A string of `n` spaces (for `json.dumps` indentation). -/
def pad (n : Nat) : String :=
  String.mk (List.replicate n (Char.ofNat 32))

mutual

/-- `json.dumps(j, ensure_ascii=False, indent=2)` rendered at indentation
`level` (string escaping inside the dump is not modelled; the scripts never
hit it). -/
def json_dumps (j : Json) (level : Nat) : String :=
  match j with
  | Json.null => "null"
  | Json.bool true => "true"
  | Json.bool false => "false"
  | Json.num n => toString n
  | Json.str s => "\"" ++ s ++ "\""
  | Json.arr [] => "[]"
  | Json.arr (x :: xs) =>
      "[\n" ++ json_dumps_elems (x :: xs) (level + 2) ++ "\n" ++ pad level ++ "]"
  | Json.obj [] => "\x7b\x7d"
  | Json.obj (f :: fs) =>
      "\x7b\n" ++ json_dumps_fields (f :: fs) (level + 2) ++ "\n" ++ pad level ++ "\x7d"

/-- The elements of a dumped JSON array, one per line. -/
def json_dumps_elems (xs : List Json) (level : Nat) : String :=
  match xs with
  | [] => ""
  | [j] => pad level ++ json_dumps j level
  | j :: js => pad level ++ json_dumps j level ++ ",\n" ++ json_dumps_elems js level

/-- The items of a dumped JSON object, one per line. -/
def json_dumps_fields (fs : List (String × Json)) (level : Nat) : String :=
  match fs with
  | [] => ""
  | [(k, v)] => pad level ++ "\"" ++ k ++ "\": " ++ json_dumps v level
  | (k, v) :: rest =>
      pad level ++ "\"" ++ k ++ "\": " ++ json_dumps v level ++ ",\n" ++
        json_dumps_fields rest level

end

/-- Python `==` between a JSON-decoded value and an int literal (`True == 1`
and `False == 0` hold in Python; other JSON values never equal an int). -/
def pyEqInt (j : Json) (n : Int) : Bool :=
  match j with
  | Json.num m => m == n
  | Json.bool b => (if b then (1 : Int) else 0) == n
  | _ => false

/-- `result.get('errcode') == 0` on a decoded JSON dict: `dict.get` yields
`None` when the key is absent, and `None == 0` is false. -/
def errcode_is_zero (fields : List (String × Json)) : Bool :=
  match fields.lookup "errcode" with
  | some v => pyEqInt v 0
  | none => false

/-- `result.get('errmsg', '未知错误')` rendered by f-string interpolation. -/
def errmsg_or_default (fields : List (String × Json)) : String :=
  match fields.lookup "errmsg" with
  | some v => v.pyStr
  | none => "未知错误"

/-- Python type name of a JSON-decoded value, as it appears in the
`AttributeError` raised by `value.get(...)` on a non-dict. -/
def py_type_name : Json → String
  | Json.null => "NoneType"
  | Json.bool _ => "bool"
  | Json.num _ => "int"
  | Json.str _ => "str"
  | Json.arr _ => "list"
  | Json.obj _ => "dict"

/-- Message of the `AttributeError` raised by `result.get(...)` when the
decoded JSON value `result` is not a dict. -/
def attribute_error_msg (j : Json) : String :=
  "AttributeError: \x27" ++ py_type_name j ++ "\x27 object has no attribute \x27get\x27"

/-- The single outbound HTTP POST issued via
`requests.post(url, json=payload, headers=..., timeout=...)`. -/
structure HttpRequest where
  url : String
  jsonBody : Json
  headers : List (String × String)
  timeout : Nat

/-- Outcome of `requests.post`: either a `requests.exceptions.RequestException`
(DNS failure, connection refused, timeout, ...) or an HTTP response carrying
its status code, its raw text, and the result of `response.json()` (`Except.error`
models the `json.JSONDecodeError` raised on an invalid body). -/
inductive NetResult where
  | transportError (msg : String)
  | response (status : Nat) (text : String) (parsed : Except String Json)

/-- The network environment: what the single `requests.post` call returns. -/
abbrev Net := HttpRequest → NetResult

/-- Result of running a Python function: a normal return value, or an
exception propagating out of it uncaught. -/
inductive PyResult (α : Type) where
  | ok (a : α)
  | exn (msg : String)

/-- `class WeChatBot`: holds the webhook URL given to `__init__`. -/
structure WeChatBot where
  webhook_url : String

/-- The request `WeChatBot.send_message` posts: markdown payload
`{"msgtype": "markdown", "markdown": {"content": "## <title>\n\n<message>"}}`,
header `Content-Type: application/json`, `timeout=10`. -/
def WeChatBot.request (bot : WeChatBot) (message title : String) : HttpRequest :=
  { url := bot.webhook_url
  , jsonBody := Json.obj
      [ ("msgtype", Json.str "markdown")
      , ("markdown", Json.obj [("content", Json.str ("## " ++ title ++ "\n\n" ++ message))]) ]
  , headers := [("Content-Type", "application/json")]
  , timeout := 10 }

/-- `WeChatBot.send_message(message, title)` (the Python default for `title`
is "Lai 通知"; every call site passes it explicitly).  Returns the `(success,
detail)` pair together with the list of HTTP requests issued.  The `try`
block catches `requests.exceptions.RequestException` and
`json.JSONDecodeError` only; `result.get('errcode')` on a decoded non-dict
raises an `AttributeError` that no handler catches. -/
def WeChatBot.send_message (bot : WeChatBot) (net : Net) (message title : String) :
    PyResult (Bool × String) × List HttpRequest :=
  ( match net (bot.request message title) with
    | NetResult.transportError e => PyResult.ok (false, "网络请求失败: " ++ e)
    | NetResult.response status _text parsed =>
      if status == 200 then
        match parsed with
        | Except.error e => PyResult.ok (false, "JSON解析失败: " ++ e)
        | Except.ok result =>
          match result with
          | Json.obj fields =>
            if errcode_is_zero fields then PyResult.ok (true, "消息发送成功")
            else PyResult.ok (false, "企业微信API错误: " ++ errmsg_or_default fields)
          | other => PyResult.exn (attribute_error_msg other)
      else PyResult.ok (false, "HTTP错误: " ++ toString status)
  , [bot.request message title] )

/-- `WeChatBot.send_log_summary(file_path, summary)`; `now` is
`datetime.now().strftime("%Y-%m-%d %H:%M:%S")`. -/
def WeChatBot.send_log_summary (bot : WeChatBot) (net : Net) (now file_path summary : String) :
    PyResult (Bool × String) × List HttpRequest :=
  bot.send_message net
    ("\n**🚨 日志摘要通知**\n\n**📁 文件:** `" ++ file_path ++ "`\n**⏰ 时间:** `" ++ now ++
      "`\n\n**📋 摘要内容:**\n```\n" ++ summary ++ "\n```\n")
    "🚨 日志摘要通知"

/-- `WeChatBot.send_error(file_path, error_msg)`; `now` is
`datetime.now().strftime("%Y-%m-%d %H:%M:%S")`. -/
def WeChatBot.send_error (bot : WeChatBot) (net : Net) (now file_path error_msg : String) :
    PyResult (Bool × String) × List HttpRequest :=
  bot.send_message net
    ("\n**🚨 严重错误警报**\n\n**📁 文件:** `" ++ file_path ++ "`\n**⏰ 时间:** `" ++ now ++
      "`\n\n**💥 错误详情:**\n```\n" ++ error_msg ++ "\n```\n")
    "🚨 严重错误警报"

/-- The fixed markdown content of the canned test message in
`test_wechat.py` (a triple-quoted literal, whitespace included). -/
def test_message_content : String :=
  "\n## 🧪 企业微信测试消息\n\n✅ **Lai 企业微信通知测试成功！**\n\n**测试内容：**\n- 🤖 机器人状态：正常\n- 📡 Webhook 连接：正常\n- 💬 消息格式：Markdown\n\n**时间：** 2025-09-10\n\n---\n*此消息由 Lai 日志监控系统发送*\n            "

/-- `test_wechat_webhook(webhook_url)`: returns the boolean result (or an
uncaught exception), the lines printed to standard output, and the HTTP
requests issued.  `if not webhook_url:` is Python string truthiness, i.e. an
emptiness test. -/
def test_wechat_webhook (net : Net) (webhook_url : String) :
    PyResult Bool × List String × List HttpRequest :=
  if webhook_url.isEmpty then
    (PyResult.ok false, ["❌ 请提供 Webhook URL"], [])
  else
    let req : HttpRequest :=
      { url := webhook_url
      , jsonBody := Json.obj
          [ ("msgtype", Json.str "markdown")
          , ("markdown", Json.obj [("content", Json.str test_message_content)]) ]
      , headers := [("Content-Type", "application/json")]
      , timeout := 10 }
    match net req with
    | NetResult.transportError e => (PyResult.ok false, ["❌ 网络请求失败: " ++ e], [req])
    | NetResult.response status text parsed =>
      let statusLine := "📡 HTTP 状态码: " ++ toString status
      if status == 200 then
        match parsed with
        | Except.error e =>
            (PyResult.ok false, [statusLine, "❌ JSON 解析失败: " ++ e], [req])
        | Except.ok result =>
          let contentLine := "📋 响应内容: " ++ json_dumps result 0
          match result with
          | Json.obj fields =>
            if errcode_is_zero fields then
              (PyResult.ok true, [statusLine, contentLine, "✅ 企业微信 Webhook 测试成功！"], [req])
            else
              (PyResult.ok false,
                [statusLine, contentLine, "❌ 企业微信 API 错误: " ++ errmsg_or_default fields],
                [req])
          | other =>
              (PyResult.exn (attribute_error_msg other), [statusLine, contentLine], [req])
      else
        (PyResult.ok false,
          [statusLine, "❌ HTTP 错误: " ++ toString status, "📋 响应内容: " ++ text], [req])

/-- Result of a whole process run: standard-output lines, exit code, and the
HTTP requests issued. -/
structure ProcResult where
  output : List String
  exitCode : Nat
  requests : List HttpRequest

/-- The tail of `wechat_bot.main`: `if success: print ✅, exit 0; else print
❌, exit 1`.  On an uncaught exception the interpreter prints a traceback to
standard error and exits with code 1. -/
def finish : PyResult (Bool × String) × List HttpRequest → ProcResult
  | (PyResult.ok (true, result), reqs) => ⟨["✅ " ++ result], 0, reqs⟩
  | (PyResult.ok (false, result), reqs) => ⟨["❌ " ++ result], 1, reqs⟩
  | (PyResult.exn _, reqs) => ⟨[], 1, reqs⟩

/-- The usage text `wechat_bot.main` prints when fewer than three arguments
are given. -/
def usage_lines : List String :=
  [ "使用方法:"
  , "  python wechat_bot.py <webhook_url> <消息类型> [参数...]"
  , ""
  , "消息类型:"
  , "  summary <文件路径> <摘要内容>"
  , "  error <文件路径> <错误信息>"
  , "  message <标题> <消息内容>" ]

/-- `main` of `wechat_bot.py` on the argument vector `argv` (including the
program name, as in `sys.argv`); `now` is `datetime.now().strftime(...)`. -/
def wechat_bot_main (argv : List String) (net : Net) (now : String) : ProcResult :=
  match argv with
  | _prog :: webhook_url :: msg_type :: rest =>
    let bot : WeChatBot := ⟨webhook_url⟩
    if msg_type == "summary" then
      match rest with
      | [file_path, summary] => finish (bot.send_log_summary net now file_path summary)
      | _ => ⟨["错误: summary 类型需要文件路径和摘要内容"], 1, []⟩
    else if msg_type == "error" then
      match rest with
      | [file_path, error_msg] => finish (bot.send_error net now file_path error_msg)
      | _ => ⟨["错误: error 类型需要文件路径和错误信息"], 1, []⟩
    else if msg_type == "message" then
      match rest with
      | [title, message] => finish (bot.send_message net message title)
      | _ => ⟨["错误: message 类型需要标题和消息内容"], 1, []⟩
    else
      ⟨["错误: 未知的消息类型 \x27" ++ msg_type ++ "\x27"], 1, []⟩
  | _ => ⟨usage_lines, 1, []⟩

/-- The usage text `test_wechat.main` prints when not given exactly one
argument. -/
def test_usage_lines : List String :=
  [ "使用方法:"
  , "  python test_wechat.py <webhook_url>"
  , ""
  , "示例:"
  , "  python test_wechat.py https://qyapi.weixin.qq.com/cgi-bin/webhook/send?key=YOUR_KEY" ]

/-- `main` of `test_wechat.py` on the argument vector `argv` (including the
program name, as in `sys.argv`). -/
def test_wechat_main (argv : List String) (net : Net) : ProcResult :=
  match argv with
  | [_prog, webhook_url] =>
    let banner :=
      [ "🧪 开始测试企业微信 Webhook..."
      , "📡 Webhook URL: " ++ webhook_url.take 50 ++ "..."
      , "" ]
    match test_wechat_webhook net webhook_url with
    | (PyResult.ok true, out, reqs) =>
        ⟨banner ++ out ++ ["", "🎉 测试完成！企业微信通知配置正确。", "💡 现在你可以在 Lai 中使用企业微信通知了。"], 0, reqs⟩
    | (PyResult.ok false, out, reqs) =>
        ⟨banner ++ out ++ ["", "⚠️  测试失败！请检查：", "1. Webhook URL 是否正确", "2. 网络连接是否正常", "3. 企业微信群机器人是否正常工作"], 1, reqs⟩
    | (PyResult.exn _, out, reqs) => ⟨banner ++ out, 1, reqs⟩
  | _ => ⟨test_usage_lines, 1, []⟩

/-- `as` is a prefix of `bs` (character lists, for substring containment). -/
def charsStartWith : List Char → List Char → Bool
  | [], _ => true
  | _ :: _, [] => false
  | a :: as, b :: bs => a == b && charsStartWith as bs

/-- `pat` occurs as a contiguous run inside `s`. -/
def charsContain (s pat : List Char) : Bool :=
  charsStartWith pat s ||
    match s with
    | [] => false
    | _ :: rest => charsContain rest pat

/-- Substring containment on strings (via their character lists). -/
def strContains (s pat : String) : Bool :=
  charsContain s.data pat.data

/-- C1: if the HTTP POST returns status 200 and the response body parses as
JSON with field `errcode` equal to 0, then `send_message` returns the pair
`(True, "消息发送成功")`, i.e. delivered=true with the success detail. -/
theorem c1_errcode_zero_delivered (net : Net) (bot : WeChatBot)
    (message title text : String) (fields : List (String × Json))
    (hresp : net (bot.request message title)
      = NetResult.response 200 text (Except.ok (Json.obj fields)))
    (hcode : fields.lookup "errcode" = some (Json.num 0)) :
    (bot.send_message net message title).fst = PyResult.ok (true, "消息发送成功") := by
  simp [WeChatBot.send_message, hresp, errcode_is_zero, hcode, pyEqInt]

/-- Witness for C1 at a concrete environment returning 200 and
`{"errcode": 0}`. -/
theorem c1_witness :
    ((WeChatBot.mk "https://example.com/hook").send_message
        (fun _ => NetResult.response 200 "resp-body"
          (Except.ok (Json.obj [("errcode", Json.num 0)])))
        "hello" "greeting").fst = PyResult.ok (true, "消息发送成功") :=
  c1_errcode_zero_delivered _ _ _ _ "resp-body" _ rfl rfl

/-- C2: for every title and body, `send_message` issues exactly one HTTP POST
whose JSON body is `{"msgtype": "markdown", "markdown": {"content":
"## <title>\n\n<body>"}}`, with header `Content-Type: application/json` and
timeout 10. -/
theorem c2_request_shape (net : Net) (bot : WeChatBot) (message title : String) :
    (bot.send_message net message title).snd =
      [ { url := bot.webhook_url
        , jsonBody := Json.obj
            [ ("msgtype", Json.str "markdown")
            , ("markdown", Json.obj
                [("content", Json.str ("## " ++ title ++ "\n\n" ++ message))]) ]
        , headers := [("Content-Type", "application/json")]
        , timeout := 10 } ] := rfl

/-- C3 counterexample: on a 404 response with body "page not found",
`send_message` returns delivered=false with detail `"HTTP错误: 404"`, which
contains the status code but does not contain the raw response body, refuting
the claim that the detail includes both. -/
theorem c3_counterexample :
    ((WeChatBot.mk "https://example.com/hook").send_message
        (fun _ => NetResult.response 404 "page not found"
          (Except.error "Expecting value: line 1 column 1 (char 0)"))
        "hello" "greeting").fst = PyResult.ok (false, "HTTP错误: 404")
    ∧ strContains "HTTP错误: 404" "404" = true
    ∧ strContains "HTTP错误: 404" "page not found" = false :=
  ⟨rfl, rfl, rfl⟩

/-- C3 (amended): for every response with HTTP status other than 200,
`send_message` returns delivered=false with detail exactly
`"HTTP错误: <status>"` — it contains the numeric status code, but the raw
response body is not included. -/
theorem c3_non200_detail (net : Net) (bot : WeChatBot)
    (message title text : String) (status : Nat) (parsed : Except String Json)
    (hresp : net (bot.request message title) = NetResult.response status text parsed)
    (hstatus : status ≠ 200) :
    (bot.send_message net message title).fst
      = PyResult.ok (false, "HTTP错误: " ++ toString status) := by
  simp [WeChatBot.send_message, hresp, hstatus]

/-- Witness for C3 (amended) at a concrete 500 response. -/
theorem c3_witness :
    ((WeChatBot.mk "https://example.com/hook").send_message
        (fun _ => NetResult.response 500 "oops" (Except.error "bad json"))
        "hello" "greeting").fst = PyResult.ok (false, "HTTP错误: 500") :=
  c3_non200_detail _ _ _ _ "oops" 500 _ rfl (by decide)

/-- C4: on a 200 response whose JSON object has `errcode` equal to some
nonzero integer, `send_message` returns delivered=false with detail
`"企业微信API错误: "` followed by the rendered `errmsg` field, which is the
provided `errmsg` string when present and `"未知错误"` when absent. -/
theorem c4_errcode_nonzero (net : Net) (bot : WeChatBot)
    (message title text : String) (fields : List (String × Json)) (e : Int)
    (hresp : net (bot.request message title)
      = NetResult.response 200 text (Except.ok (Json.obj fields)))
    (hcode : fields.lookup "errcode" = some (Json.num e))
    (hne : e ≠ 0) :
    (bot.send_message net message title).fst
        = PyResult.ok (false, "企业微信API错误: " ++ errmsg_or_default fields)
      ∧ (∀ s, fields.lookup "errmsg" = some (Json.str s) → errmsg_or_default fields = s)
      ∧ (fields.lookup "errmsg" = none → errmsg_or_default fields = "未知错误") := by
  refine ⟨?_, ?_, ?_⟩
  · simp [WeChatBot.send_message, hresp, errcode_is_zero, hcode, pyEqInt, hne]
  · intro s hs
    simp [errmsg_or_default, hs, Json.pyStr]
  · intro hs
    simp [errmsg_or_default, hs]

/-- Witness for C4 at a concrete environment returning 200 and
`{"errcode": 93000, "errmsg": "invalid webhook url"}`. -/
theorem c4_witness :
    ((WeChatBot.mk "https://example.com/hook").send_message
        (fun _ => NetResult.response 200 "resp-body"
          (Except.ok (Json.obj
            [("errcode", Json.num 93000), ("errmsg", Json.str "invalid webhook url")])))
        "hello" "greeting").fst
      = PyResult.ok (false, "企业微信API错误: invalid webhook url") :=
  (c4_errcode_nonzero _ _ _ _ "resp-body"
    [("errcode", Json.num 93000), ("errmsg", Json.str "invalid webhook url")]
    93000 rfl rfl (by decide)).1

/-- C5: on a 200 response whose body is not valid JSON, `send_message`
returns delivered=false with detail `"JSON解析失败: "` followed by the decode
error — the JSON-parse-failure detail, not the transport-error detail. -/
theorem c5_parse_failure (net : Net) (bot : WeChatBot)
    (message title text e : String)
    (hresp : net (bot.request message title)
      = NetResult.response 200 text (Except.error e)) :
    (bot.send_message net message title).fst
      = PyResult.ok (false, "JSON解析失败: " ++ e) := by
  simp [WeChatBot.send_message, hresp]

/-- Witness for C5 at a concrete 200 response with a non-JSON body. -/
theorem c5_witness :
    ((WeChatBot.mk "https://example.com/hook").send_message
        (fun _ => NetResult.response 200 "<html>"
          (Except.error "Expecting value: line 1 column 1 (char 0)"))
        "hello" "greeting").fst
      = PyResult.ok (false, "JSON解析失败: Expecting value: line 1 column 1 (char 0)") :=
  c5_parse_failure _ _ _ _ "<html>" _ rfl

/-- C6 counterexample: on a 200 response whose body is the valid JSON `[]`
(not an object), `result.get('errcode')` raises an uncaught `AttributeError`
— `send_message` does not return a `(bool, detail)` pair to its caller,
refuting the claim for "any response body". -/
theorem c6_counterexample :
    ((WeChatBot.mk "https://example.com/hook").send_message
        (fun _ => NetResult.response 200 "[]" (Except.ok (Json.arr [])))
        "hello" "greeting").fst
      = PyResult.exn "AttributeError: \x27list\x27 object has no attribute \x27get\x27" :=
  rfl

/-- C6 (amended): `send_message` returns a `(bool, detail)` pair without
raising for every transport failure (with the transport-error detail), every
non-200 status, every invalid-JSON 200 body, and every 200 body that parses
to a JSON object; a 200 body parsing to a non-object value instead raises an
uncaught `AttributeError`. -/
theorem c6_no_raise_amended (net : Net) (bot : WeChatBot) (message title : String) :
    (∀ e, net (bot.request message title) = NetResult.transportError e →
      (bot.send_message net message title).fst
        = PyResult.ok (false, "网络请求失败: " ++ e))
    ∧ (∀ status text parsed,
        net (bot.request message title) = NetResult.response status text parsed →
        (status ≠ 200 ∨ (∃ e, parsed = Except.error e)
          ∨ (∃ fields, parsed = Except.ok (Json.obj fields))) →
        ∃ b d, (bot.send_message net message title).fst = PyResult.ok (b, d)) := by
  constructor
  · intro e hresp
    simp [WeChatBot.send_message, hresp]
  · intro status text parsed hresp hcases
    rcases hcases with hstatus | ⟨e, he⟩ | ⟨fields, hf⟩
    · exact ⟨false, "HTTP错误: " ++ toString status,
        by simp [WeChatBot.send_message, hresp, hstatus]⟩
    · subst he
      by_cases hstatus : status = 200
      · subst hstatus
        exact ⟨false, "JSON解析失败: " ++ e, by simp [WeChatBot.send_message, hresp]⟩
      · exact ⟨false, "HTTP错误: " ++ toString status,
          by simp [WeChatBot.send_message, hresp, hstatus]⟩
    · subst hf
      by_cases hstatus : status = 200
      · subst hstatus
        by_cases hz : errcode_is_zero fields
        · exact ⟨true, "消息发送成功", by simp [WeChatBot.send_message, hresp, hz]⟩
        · exact ⟨false, "企业微信API错误: " ++ errmsg_or_default fields,
            by simp [WeChatBot.send_message, hresp, hz]⟩
      · exact ⟨false, "HTTP错误: " ++ toString status,
          by simp [WeChatBot.send_message, hresp, hstatus]⟩

/-- Witness for C6 (amended) at a concrete refused connection. -/
theorem c6_witness :
    ((WeChatBot.mk "https://example.com/hook").send_message
        (fun _ => NetResult.transportError "Connection refused") "hello" "greeting").fst
      = PyResult.ok (false, "网络请求失败: Connection refused") :=
  (c6_no_raise_amended (fun _ => NetResult.transportError "Connection refused")
    (WeChatBot.mk "https://example.com/hook") "hello" "greeting").1
    "Connection refused" rfl

/-- The exit code produced by the tail of `wechat_bot.main` is 0 exactly when
the send succeeded. -/
theorem finish_exit (s : PyResult (Bool × String) × List HttpRequest) :
    (finish s).exitCode = 0 ↔ ∃ d, s.fst = PyResult.ok (true, d) := by
  rcases s with ⟨pr, reqs⟩
  match pr with
  | PyResult.ok (true, r) => simp [finish]
  | PyResult.ok (false, r) => simp [finish]
  | PyResult.exn e => simp [finish]

/-- The tail of `wechat_bot.main` passes the request list through. -/
theorem finish_requests (s : PyResult (Bool × String) × List HttpRequest) :
    (finish s).requests = s.snd := by
  rcases s with ⟨pr, reqs⟩
  match pr with
  | PyResult.ok (true, r) => rfl
  | PyResult.ok (false, r) => rfl
  | PyResult.exn e => rfl

/-- Exit code of `test_wechat.main` given one webhook-URL argument: 0 exactly
when `test_wechat_webhook` returned True. -/
theorem test_wechat_main_exit (net : Net) (p url : String) :
    (test_wechat_main [p, url] net).exitCode = 0 ↔
      (test_wechat_webhook net url).fst = PyResult.ok true := by
  rcases h : test_wechat_webhook net url with ⟨pr, out, reqs⟩
  rcases pr with b | e
  · cases b <;> simp [test_wechat_main, h]
  · simp [test_wechat_main, h]

/-- The tail of `wechat_bot.main` exits with code exactly 1 on every failure
outcome (delivered=false, or an uncaught exception). -/
theorem finish_exit_failure (s : PyResult (Bool × String) × List HttpRequest)
    (h : ∀ d, s.fst ≠ PyResult.ok (true, d)) : (finish s).exitCode = 1 := by
  rcases s with ⟨pr, reqs⟩
  match pr with
  | PyResult.ok (true, r) => exact absurd rfl (h r)
  | PyResult.ok (false, r) => rfl
  | PyResult.exn e => rfl

/-- `test_wechat.main` exits with code exactly 1 on every failure outcome of
`test_wechat_webhook` (False, or an uncaught exception). -/
theorem test_wechat_main_exit_failure (net : Net) (p url : String)
    (h : (test_wechat_webhook net url).fst ≠ PyResult.ok true) :
    (test_wechat_main [p, url] net).exitCode = 1 := by
  rcases hw : test_wechat_webhook net url with ⟨pr, out, reqs⟩
  rw [hw] at h
  rcases pr with b | e
  · cases b
    · simp [test_wechat_main, hw]
    · exact absurd rfl h
  · simp [test_wechat_main, hw]

/-- C7: for every CLI invocation that reaches a send (the three well-formed
`notify-send` shapes and `notify-test`), the process exit code is 0 exactly
when the outcome is delivered=true, and every failure outcome (delivered
false, or an uncaught exception) yields exit code exactly 1. -/
theorem c7_exit_code_iff_delivered (net : Net) (now p url a b : String) :
    (((wechat_bot_main [p, url, "summary", a, b] net now).exitCode = 0 ↔
        ∃ d, ((WeChatBot.mk url).send_log_summary net now a b).fst = PyResult.ok (true, d))
      ∧ ((∀ d, ((WeChatBot.mk url).send_log_summary net now a b).fst ≠ PyResult.ok (true, d)) →
        (wechat_bot_main [p, url, "summary", a, b] net now).exitCode = 1))
    ∧ (((wechat_bot_main [p, url, "error", a, b] net now).exitCode = 0 ↔
        ∃ d, ((WeChatBot.mk url).send_error net now a b).fst = PyResult.ok (true, d))
      ∧ ((∀ d, ((WeChatBot.mk url).send_error net now a b).fst ≠ PyResult.ok (true, d)) →
        (wechat_bot_main [p, url, "error", a, b] net now).exitCode = 1))
    ∧ (((wechat_bot_main [p, url, "message", a, b] net now).exitCode = 0 ↔
        ∃ d, ((WeChatBot.mk url).send_message net b a).fst = PyResult.ok (true, d))
      ∧ ((∀ d, ((WeChatBot.mk url).send_message net b a).fst ≠ PyResult.ok (true, d)) →
        (wechat_bot_main [p, url, "message", a, b] net now).exitCode = 1))
    ∧ (((test_wechat_main [p, url] net).exitCode = 0 ↔
        (test_wechat_webhook net url).fst = PyResult.ok true)
      ∧ ((test_wechat_webhook net url).fst ≠ PyResult.ok true →
        (test_wechat_main [p, url] net).exitCode = 1)) :=
  ⟨⟨finish_exit _, finish_exit_failure _⟩
  , ⟨finish_exit _, finish_exit_failure _⟩
  , ⟨finish_exit _, finish_exit_failure _⟩
  , ⟨test_wechat_main_exit net p url, test_wechat_main_exit_failure net p url⟩⟩

/-- Witness for C7: a refused connection on `notify-send ... message` makes
the process exit with code exactly 1. -/
theorem c7_witness :
    (wechat_bot_main
        ["wechat_bot.py", "https://example.com/hook", "message", "greeting", "hello"]
        (fun _ => NetResult.transportError "Connection refused")
        "2025-09-10 12:00:00").exitCode = 1 :=
  (c7_exit_code_iff_delivered (fun _ => NetResult.transportError "Connection refused")
      "2025-09-10 12:00:00" "wechat_bot.py" "https://example.com/hook"
      "greeting" "hello").2.2.1.2
    (by intro d h; simp [WeChatBot.send_message] at h)

/-- C8: invoking `wechat_bot.main` with message type `summary` and an
argument count other than 5 prints the summary usage error, exits with code
1, and issues no network request. -/
theorem c8_summary_wrong_argc (net : Net) (now p url : String) (rest : List String)
    (hlen : rest.length ≠ 2) :
    wechat_bot_main (p :: url :: "summary" :: rest) net now =
      ⟨["错误: summary 类型需要文件路径和摘要内容"], 1, []⟩ := by
  match rest, hlen with
  | [], _ => rfl
  | [x], _ => rfl
  | [x, y], h => exact absurd rfl h
  | x :: y :: z :: t, _ => rfl

/-- Witness for C8: `summary` with no further arguments. -/
theorem c8_witness :
    wechat_bot_main ["wechat_bot.py", "https://example.com/hook", "summary"]
        (fun _ => NetResult.transportError "unused") "2025-09-10 12:00:00" =
      ⟨["错误: summary 类型需要文件路径和摘要内容"], 1, []⟩ :=
  c8_summary_wrong_argc _ _ _ _ [] (by decide)

/-- `wechat_bot.main` issues at most one HTTP request on any argument
vector. -/
theorem wechat_bot_main_requests (argv : List String) (net : Net) (now : String) :
    (wechat_bot_main argv net now).requests.length ≤ 1 := by
  rcases argv with _ | ⟨p, _ | ⟨u, _ | ⟨mt, rest⟩⟩⟩ <;>
    simp only [wechat_bot_main] <;>
    repeat' split
  all_goals
    simp [finish_requests, WeChatBot.send_log_summary, WeChatBot.send_error,
      WeChatBot.send_message]

/-- `test_wechat_webhook` issues at most one HTTP request. -/
theorem test_wechat_webhook_requests (net : Net) (url : String) :
    (test_wechat_webhook net url).snd.snd.length ≤ 1 := by
  simp only [test_wechat_webhook]
  repeat' split
  all_goals simp

/-- `test_wechat.main` issues at most one HTTP request on any argument
vector. -/
theorem test_wechat_main_requests (argv : List String) (net : Net) :
    (test_wechat_main argv net).requests.length ≤ 1 := by
  rcases argv with _ | ⟨p, _ | ⟨u, _ | ⟨x, xs⟩⟩⟩
  · simp [test_wechat_main]
  · simp [test_wechat_main]
  · have hb := test_wechat_webhook_requests net u
    rcases h : test_wechat_webhook net u with ⟨pr, out, reqs⟩
    rw [h] at hb
    rcases pr with b | e
    · cases b <;> simp [test_wechat_main, h] <;> simpa using hb
    · simp [test_wechat_main, h]
      simpa using hb
  · simp [test_wechat_main]

/-- C9: every invocation of either script performs at most one outbound HTTP
request (no retries), and a send performs exactly one. -/
theorem c9_single_request (argv : List String) (net : Net)
    (now message title : String) (bot : WeChatBot) :
    (wechat_bot_main argv net now).requests.length ≤ 1
    ∧ (test_wechat_main argv net).requests.length ≤ 1
    ∧ (bot.send_message net message title).snd.length = 1 :=
  ⟨wechat_bot_main_requests argv net now, test_wechat_main_requests argv net, rfl⟩

/-- C10: with an empty (falsy) webhook URL, `test_wechat_webhook` returns
False and issues no network request, while `WeChatBot.send_message` performs
no presence check: on every URL (the empty one included) it issues exactly
one POST to whatever endpoint string it was given. -/
theorem c10_presence_check_asymmetry (net : Net) (url message title : String) :
    (test_wechat_webhook net "").fst = PyResult.ok false
    ∧ (test_wechat_webhook net "").snd.snd = []
    ∧ ((WeChatBot.mk url).send_message net message title).snd
        = [(WeChatBot.mk url).request message title]
    ∧ ((WeChatBot.mk url).request message title).url = url :=
  ⟨rfl, rfl, rfl, rfl⟩
